import Mathlib

/-!
Shallow embedding of the geo-temporal ingestion pipeline of this repository
(`firms_to_mongo.py` for satellite detections, `aemet_pred_auto.py` for
provincial weather forecasts), together with theorems settling the spec's
claims about it.

Conventions of the embedding:
* coordinates and intensities are rationals (`ℚ`), mirroring the decimal
  values of the CSV feed;
* the MongoDB collection is a list of records; `delete_many` is a filter,
  `update_one … upsert=True` with `$setOnInsert` is "append if no record
  matches the key, else leave the list unchanged";
* `datetime` instants are calendar datetimes (always UTC in the source,
  which calls `.replace(tzinfo=timezone.utc)`), compared chronologically
  through their minute count `DateTime.toMin`;
* sleeps are recorded instead of performed.
-/

namespace Firms

/-- A raw CSV row of the NASA FIRMS detection feed, restricted to the
fields the script reads (`latitude, longitude, acq_date, acq_time, frp`). -/
structure RawRow where
  latitude : ℚ
  longitude : ℚ
  acq_date : String
  acq_time : String
  frp : ℚ
  deriving DecidableEq, Repr

/-! ### Geofence constants and masks (`firms_to_mongo.py` §3) -/

def lat_min : ℚ := 35
def lat_max : ℚ := mkRat 445 10
def lon_min : ℚ := -10
def lon_max : ℚ := mkRat 45 10

/-- Bounding-box membership, the §3.1 filter
`(lat ≥ lat_min) & (lat ≤ lat_max) & (lon ≥ lon_min) & (lon ≤ lon_max)`. -/
def en_bbox (lat lon : ℚ) : Bool :=
  decide (lat_min ≤ lat) && decide (lat ≤ lat_max) &&
  decide (lon_min ≤ lon) && decide (lon ≤ lon_max)

/-- Exclusion mask of §3.2 for northern Africa: `lat < 37 AND lon > -1`. -/
def mask_africa (lat lon : ℚ) : Bool :=
  decide (lat < 37) && decide (lon > -1)

/-- Exclusion mask of §3.3 for southern France: `lat > 43.9`. -/
def mask_francia (lat : ℚ) : Bool :=
  decide (lat > mkRat 439 10)

/-- The point-level geofence the script implements: inside the bounding box
and matching neither exclusion mask. -/
def classify_point (lat lon : ℚ) : Bool :=
  en_bbox lat lon && !(mask_africa lat lon || mask_francia lat)

/-- Step §3 as the script performs it on the dataframe: first the bounding-box
filter, then removal of rows matching `mask_africa | mask_francia`. -/
def filtraEspana (rows : List RawRow) : List RawRow :=
  (rows.filter (fun r => en_bbox r.latitude r.longitude)).filter
    (fun r => !(mask_africa r.latitude r.longitude || mask_francia r.latitude))

/-! ### Datetime parsing (`firms_to_mongo.py` §5) -/

/-- A UTC calendar instant at minute resolution, the result of
`datetime.strptime(f"{fecha} {hora}", "%Y-%m-%d %H%M").replace(tzinfo=utc)`. -/
structure DateTime where
  year : Nat
  month : Nat
  day : Nat
  hour : Nat
  minute : Nat
  deriving DecidableEq, Repr

/-- Python `str.zfill` on a digit string: left-pad with `'0'` to width `w`. -/
def zfill (s : String) (w : Nat) : String :=
  if w ≤ s.length then s
  else String.mk (List.replicate (w - s.length) '0') ++ s

/-- Decimal parse of a nonempty all-digit character sequence. -/
def parseDigits (cs : List Char) : Option Nat :=
  if cs.length > 0 && cs.all Char.isDigit then
    some (cs.foldl (fun n c => n * 10 + (c.toNat - 48)) 0)
  else
    none

/-- Split a character sequence at every occurrence of `sep`
(semantics of Python's `str.split(sep)` on the pieces between separators). -/
def trozos (sep : Char) : List Char → List (List Char)
  | [] => [[]]
  | c :: rest =>
    let r := trozos sep rest
    if c == sep then [] :: r
    else
      match r with
      | t :: ts => (c :: t) :: ts
      | [] => [[c]]

/-- Gregorian leap-year test, as Python's `calendar`/`datetime`. -/
def esBisiesto (y : Nat) : Bool :=
  (y % 4 == 0 && y % 100 != 0) || y % 400 == 0

/-- Length of month `m` of year `y` (1-based month). -/
def diasMes (y m : Nat) : Nat :=
  if m == 2 then (if esBisiesto y then 29 else 28)
  else if m == 4 || m == 6 || m == 9 || m == 11 then 30
  else 31

/-- Parsing per `strptime "%Y-%m-%d"` followed by `datetime`'s own range validation:
three dash-separated decimal fields, with `1 ≤ month ≤ 12` and
`1 ≤ day ≤ diasMes year month`. -/
def parseFecha (s : String) : Option (Nat × Nat × Nat) :=
  match (trozos '-' s.toList).map parseDigits with
  | [some y, some m, some d] =>
      if 1 ≤ m && m ≤ 12 && 1 ≤ d && d ≤ diasMes y m then some (y, m, d) else none
  | _ => none

/-- Parsing per `strptime "%H%M"` on the `zfill 4` time-of-day field: the string must be
exactly four digits `hhmm` with `hh ≤ 23` and `mm ≤ 59`. -/
def parseHora (s : String) : Option (Nat × Nat) :=
  let p := zfill s 4
  if p.length == 4 then
    match parseDigits (p.toList.take 2), parseDigits (p.toList.drop 2) with
    | some hh, some mm => if hh ≤ 23 && mm ≤ 59 then some (hh, mm) else none
    | _, _ => none
  else none

/-- Step §5 `parse_datetime`: combine the `fecha` and zero-padded `hora` fields
into one UTC instant, `none` (the source's `pd.NaT`) when parsing fails. -/
def parse_datetime (fecha hora : String) : Option DateTime :=
  match parseFecha fecha, parseHora hora with
  | some (y, m, d), some (hh, mm) => some ⟨y, m, d, hh, mm⟩
  | _, _ => none

/-- Minutes elapsed since 0001-01-01T00:00 for chronological comparison of
instants (proleptic Gregorian, as Python's `datetime.toordinal`). -/
def DateTime.toMin (t : DateTime) : Int :=
  let priorYears : Nat := t.year - 1
  let leapDays : Nat := priorYears / 4 - priorYears / 100 + priorYears / 400
  let priorMonthDays : Nat :=
    (List.range (t.month - 1)).foldl (fun a i => a + diasMes t.year (i + 1)) 0
  let days : Nat := priorYears * 365 + leapDays + priorMonthDays + (t.day - 1)
  ((days * 24 + t.hour) * 60 + t.minute : Nat)

/-- A normalized detection record as stored in `firms_actualizado`
(§4 rename: `latitude→latitud`, `longitude→longitud`, `frp→potencia_radiativa`;
§5 adds the combined `datetime`). -/
structure Registro where
  latitud : ℚ
  longitud : ℚ
  datetime : DateTime
  potencia_radiativa : ℚ
  deriving DecidableEq, Repr

/-- Normalization of one filtered row: rename fields and attach the parsed
datetime; rows whose datetime fails to parse are dropped
(`dropna(subset=["datetime"])`). -/
def normaliza (r : RawRow) : Option Registro :=
  match parse_datetime r.acq_date r.acq_time with
  | some dt => some ⟨r.latitude, r.longitude, dt, r.frp⟩
  | none => none

/-! ### Store passes (`firms_to_mongo.py` §6, §6bis, §8) -/

/-- Step §6: `delete_many({"datetime": {"$lt": limite_tiempo}})` — keep the
records at or after the limit, return kept list and deleted count. -/
def borraAntiguos (store : List Registro) (limite : Int) : List Registro × Nat :=
  ((store.filter fun r => !decide (r.datetime.toMin < limite)),
   (store.filter fun r => decide (r.datetime.toMin < limite)).length)

/-- Step §6bis: the `$or` deletion predicate — outside the bounding box, or in
the northern-Africa strip, or in the southern-France strip. -/
def fuera_espana (lat lon : ℚ) : Bool :=
  decide (lat < lat_min) || decide (lat > lat_max) ||
  decide (lon < lon_min) || decide (lon > lon_max) ||
  (decide (lat < 37) && decide (lon > -1)) ||
  decide (lat > mkRat 439 10)

/-- Step §6bis: `delete_many` of every stored record matching `fuera_espana`. -/
def borraFuera (store : List Registro) : List Registro × Nat :=
  ((store.filter fun r => !fuera_espana r.latitud r.longitud),
   (store.filter fun r => fuera_espana r.latitud r.longitud).length)

/-- The §7 unique-index key `(latitud, longitud, datetime)`: two records
collide when all three fields coincide (datetimes compared as instants,
as BSON dates are). -/
def mismaClave (r s : Registro) : Bool :=
  r.latitud == s.latitud && r.longitud == s.longitud &&
  r.datetime.toMin == s.datetime.toMin

/-- Step §8, the insertion loop: for each record, `update_one(key, {"$setOnInsert":
record}, upsert=True)` — a no-op when a record with the key exists, an
append otherwise.  `insertados` is incremented after every `update_one`
call that does not raise; the `except` branch (meant for unique-index
collisions) is unreachable because an upsert that matches an existing
document succeeds without raising. -/
def upsertLoop (store : List Registro) : List Registro → List Registro × Nat
  | [] => (store, 0)
  | r :: rest =>
    let store1 := if store.any (fun s => mismaClave s r) then store else store ++ [r]
    let (store2, insertados) := upsertLoop store1 rest
    (store2, insertados + 1)

/-- Exit status of one pipeline run: `SystemExit(0)` at the empty-filter
check, or normal completion. -/
inductive Salida where
  | vacia
  | completada
  deriving DecidableEq, Repr

/-- Observable result of one `firms_to_mongo.py` run. -/
structure Resultado where
  store : List Registro
  salida : Salida
  borrados_fecha : Nat
  borrados_fuera : Nat
  insertados : Nat
  deriving DecidableEq, Repr

/-- One full run of `firms_to_mongo.py` on a downloaded batch `df`, a store
state, and the current time `ahora` (minutes, per `DateTime.toMin`):
geofence filter (§3), early `SystemExit(0)` when nothing remains (the check
precedes every store operation), datetime parsing and `dropna` (§5),
age-based deletion with `limite = ahora - 7 días` (§6), geofence-based
deletion (§6bis), and the upsert loop (§8). -/
def runFirms (store : List Registro) (df : List RawRow) (ahora : Int) : Resultado :=
  let df_espana := filtraEspana df
  if df_espana.isEmpty then
    ⟨store, .vacia, 0, 0, 0⟩
  else
    let parsed := df_espana.filterMap normaliza
    let limite := ahora - 7 * 1440
    let paso1 := borraAntiguos store limite
    let paso2 := borraFuera paso1.1
    let paso3 := upsertLoop paso2.1 parsed
    ⟨paso3.1, .completada, paso1.2, paso2.2, paso3.2⟩

end Firms

namespace Aemet

/-!
Embedding of `aemet_pred_auto.py`: the per-province retry loop of
`obtener_prediccion` and the run-level delete-then-insert on the
`aemet_predicciones` collection.
-/

/-- What one attempt of `obtener_prediccion` observes, classifying the
control-flow branches of the source:
* `exito` — status 200, `datos` link present, second-stage fetch valid,
  predictions inserted, `return`;
* `sinEnlace` — status 200 but no `datos` link (or invalid/empty payload):
  the function prints a warning and gives up with `return`;
* `segundaFalla` — status 200 but the second-stage request fails
  (non-200/empty): execution falls through to the next loop iteration with
  no sleep;
* `limite429` — status 429: sleep `(intento + 1) * 10` seconds, retry;
* `otroEstado` — any other status: `return` immediately, no retry;
* `excepcion` — a raised exception: sleep 3 seconds, retry. -/
inductive Respuesta where
  | exito
  | sinEnlace
  | segundaFalla
  | limite429
  | otroEstado
  | excepcion
  deriving DecidableEq, Repr

/-- Terminal outcome of `obtener_prediccion` for one province. -/
inductive Desenlace where
  | insertado
  | abandonado
  | errorEstado
  | errorPersistente
  deriving DecidableEq, Repr

/-- The `for intento in range(5)` loop: `resps i` is what attempt `i`
observes; returns the outcome and the sleeps performed, in order.
`intento` is the current attempt index, `restantes` the attempts left. -/
def intentos (resps : Nat → Respuesta) : Nat → Nat → Desenlace × List Nat
  | _, 0 => (.errorPersistente, [])
  | intento, n + 1 =>
    match resps intento with
    | .exito => (.insertado, [])
    | .sinEnlace => (.abandonado, [])
    | .otroEstado => (.errorEstado, [])
    | .segundaFalla => intentos resps (intento + 1) n
    | .limite429 =>
      let (d, s) := intentos resps (intento + 1) n
      (d, (intento + 1) * 10 :: s)
    | .excepcion =>
      let (d, s) := intentos resps (intento + 1) n
      (d, 3 :: s)

/-- The attempt budget of `obtener_prediccion`: 5 attempts starting at index 0. -/
def obtener_prediccion (resps : Nat → Respuesta) : Desenlace × List Nat :=
  intentos resps 0 5

/-- A document of the `aemet_predicciones` collection: one forecast day for
one province, as inserted by `obtener_prediccion` (the forecast-day payload
plus `provincia`, `codigo` and `fecha_descarga`). -/
structure Prediccion where
  codigo : String
  provincia : String
  fecha : String
  datos : String
  fecha_descarga : Int
  deriving DecidableEq, Repr

/-- One successfully fetched province batch: its code, name, and the list
of forecast days `(fecha, payload)` returned by the feed. -/
structure Lote where
  codigo : String
  provincia : String
  dias : List (String × String)
  deriving DecidableEq, Repr

/-- The documents `insert_many` adds for one province batch, each stamped
with `fecha_descarga = ahora`. -/
def insertaLote (ahora : Int) (l : Lote) : List Prediccion :=
  l.dias.map fun d => ⟨l.codigo, l.provincia, d.1, d.2, ahora⟩

/-- One run of `aemet_pred_auto.py`'s main block on a store state:
`delete_many({"fecha_descarga": {"$lt": hoy}})` with `hoy` = today's
midnight UTC, then, per province whose fetch succeeded, `insert_many` of
its forecast days stamped `fecha_descarga = ahora`.  There is no unique
index and no per-key or per-region delete. -/
def runAemet (store : List Prediccion) (hoy ahora : Int) (lotes : List Lote) :
    List Prediccion :=
  (store.filter fun p => !decide (p.fecha_descarga < hoy)) ++
    lotes.flatMap (insertaLote ahora)

/-- Number of stored documents carrying a given `(codigo, fecha)` key. -/
def cuentaClave (store : List Prediccion) (cod f : String) : Nat :=
  (store.filter fun p => p.codigo == cod && p.fecha == f).length

end Aemet

namespace Firms

/-- De Morgan shape shared by the §3 filter and the §6bis predicate. -/
theorem demorgan_geocerca (a b c d e f g : Bool) :
    (!a || !b || !c || !d || (e && f) || g) = !(a && b && c && d && !(e && f || g)) := by
  cases a <;> cases b <;> cases c <;> cases d <;> cases e <;> cases f <;> cases g <;> rfl

/-- The §6bis deletion predicate is the pointwise negation of the §3
geofence: a coordinate matches `fuera_espana` exactly when `classify_point`
rejects it. -/
theorem fuera_espana_eq_not_classify (lat lon : ℚ) :
    fuera_espana lat lon = !classify_point lat lon := by
  have e1 : decide (lat < lat_min) = !decide (lat_min ≤ lat) := by
    rw [← decide_not]; exact decide_eq_decide.mpr not_le.symm
  have e2 : decide (lat > lat_max) = !decide (lat ≤ lat_max) := by
    rw [← decide_not]; exact decide_eq_decide.mpr not_le.symm
  have e3 : decide (lon < lon_min) = !decide (lon_min ≤ lon) := by
    rw [← decide_not]; exact decide_eq_decide.mpr not_le.symm
  have e4 : decide (lon > lon_max) = !decide (lon ≤ lon_max) := by
    rw [← decide_not]; exact decide_eq_decide.mpr not_le.symm
  unfold fuera_espana classify_point en_bbox mask_africa mask_francia
  rw [e1, e2, e3, e4]
  exact demorgan_geocerca _ _ _ _ _ _ _

/-- A successfully normalized record carries exactly the datetime its raw
row parsed to. -/
theorem normaliza_parse {a : RawRow} {r : Registro} (h : normaliza a = some r) :
    parse_datetime a.acq_date a.acq_time = some r.datetime := by
  unfold normaliza at h
  cases hp : parse_datetime a.acq_date a.acq_time with
  | none => rw [hp] at h; exact absurd h (by simp)
  | some dt =>
    rw [hp] at h
    simp only [Option.some.injEq] at h
    rw [← h]

/-- Any record the upsert loop leaves in the store was either already there
or is one of the batch records. -/
theorem mem_upsertLoop {store : List Registro} {batch : List Registro} {r : Registro}
    (h : r ∈ (upsertLoop store batch).1) : r ∈ store ∨ r ∈ batch := by
  induction batch generalizing store with
  | nil => exact Or.inl h
  | cons b rest ih =>
    simp only [upsertLoop] at h
    rcases ih h with h1 | h1
    · by_cases hb : store.any (fun s => mismaClave s b)
      · simp only [hb, if_pos] at h1
        exact Or.inl h1
      · simp only [hb, if_neg, not_false_iff] at h1
        rcases List.mem_append.mp h1 with h2 | h2
        · exact Or.inl h2
        · simp only [List.mem_singleton] at h2
          exact Or.inr (h2 ▸ List.mem_cons_self b rest)
    · exact Or.inr (List.mem_cons_of_mem b h1)

end Firms

namespace Aemet

/-- Key counting distributes over store concatenation. -/
theorem cuentaClave_append (a b : List Prediccion) (cod f : String) :
    cuentaClave (a ++ b) cod f = cuentaClave a cod f + cuentaClave b cod f := by
  simp [cuentaClave, List.filter_append]

/-- A province batch contributes no documents to another province's key. -/
theorem cuenta_lote_otro (ahora : Int) (l : Lote) (cod f : String)
    (h : l.codigo ≠ cod) :
    cuentaClave (insertaLote ahora l) cod f = 0 := by
  unfold cuentaClave insertaLote
  rw [List.length_eq_zero, List.filter_eq_nil_iff]
  intro p hp
  rcases List.mem_map.mp hp with ⟨d, _, rfl⟩
  simp [h]

/-- With pairwise-distinct forecast dates, at most one day entry of a batch
matches a given date. -/
theorem filtra_fechas_nodup (dias : List (String × String)) (f : String)
    (h : (dias.map Prod.fst).Nodup) :
    (dias.filter (fun d => d.1 == f)).length ≤ 1 := by
  induction dias with
  | nil => simp
  | cons d ds ih =>
    simp only [List.map_cons, List.nodup_cons] at h
    by_cases hf : d.1 = f
    · have hnone : (ds.filter (fun e => e.1 == f)).length = 0 := by
        rw [List.length_eq_zero, List.filter_eq_nil_iff]
        intro e he
        simp only [beq_iff_eq]
        intro hef
        exact h.1 (hf ▸ hef ▸ List.mem_map_of_mem Prod.fst he)
      simp [List.filter_cons, hf, hnone]
    · have hr := ih h.2
      simp only [List.filter_cons, beq_iff_eq, hf, if_false]
      exact hr

/-- A province batch with pairwise-distinct forecast dates contributes at
most one document per key of its own province. -/
theorem cuenta_lote_propio (ahora : Int) (l : Lote) (f : String)
    (h : (l.dias.map Prod.fst).Nodup) :
    cuentaClave (insertaLote ahora l) l.codigo f ≤ 1 := by
  unfold cuentaClave insertaLote
  rw [List.filter_map, List.length_map]
  have hcomp : ((fun p : Prediccion => p.codigo == l.codigo && p.fecha == f) ∘
      (fun d : String × String => ⟨l.codigo, l.provincia, d.1, d.2, ahora⟩)) =
      (fun d : String × String => d.1 == f) := by
    funext d
    simp
  rw [hcomp]
  exact filtra_fechas_nodup l.dias f h

/-- Batches of provinces other than `cod` contribute nothing to its keys. -/
theorem cuenta_lotes_otros (ahora : Int) (cod f : String) (ls : List Lote)
    (h : ∀ l ∈ ls, l.codigo ≠ cod) :
    cuentaClave (ls.flatMap (insertaLote ahora)) cod f = 0 := by
  induction ls with
  | nil => simp [cuentaClave]
  | cons l ls ih =>
    rw [List.flatMap_cons, cuentaClave_append,
      cuenta_lote_otro ahora l cod f (h l (List.mem_cons_self l ls)),
      ih (fun l' hl' => h l' (List.mem_cons_of_mem l hl'))]

/-- The freshly inserted documents of one run hold at most one entry per
`(codigo, fecha)` key, given distinct province codes across batches and
distinct dates within each batch. -/
theorem cuenta_lotes (ahora : Int) (cod f : String) (lotes : List Lote)
    (hcod : lotes.Pairwise (fun l1 l2 => l1.codigo ≠ l2.codigo))
    (hdias : ∀ l ∈ lotes, (l.dias.map Prod.fst).Nodup) :
    cuentaClave (lotes.flatMap (insertaLote ahora)) cod f ≤ 1 := by
  induction lotes with
  | nil => simp [cuentaClave]
  | cons l ls ih =>
    rcases List.pairwise_cons.mp hcod with ⟨hne, hcods⟩
    rw [List.flatMap_cons, cuentaClave_append]
    by_cases hc : l.codigo = cod
    · have h2 : cuentaClave (ls.flatMap (insertaLote ahora)) cod f = 0 :=
        cuenta_lotes_otros ahora cod f ls
          (fun l' hl' => by rw [← hc]; exact (hne l' hl').symm)
      have h1 : cuentaClave (insertaLote ahora l) cod f ≤ 1 := by
        rw [← hc]
        exact cuenta_lote_propio ahora l f (hdias l (List.mem_cons_self l ls))
      omega
    · rw [cuenta_lote_otro ahora l cod f hc]
      simpa using ih hcods (fun l' hl' => hdias l' (List.mem_cons_of_mem l hl'))

end Aemet

namespace Claims

open Firms Aemet

/-- C4: a row survives the geographic filter iff it lies inside the
bounding rectangle and matches neither the northern-Africa exclusion
(`lat < 37 ∧ lon > -1`) nor the southern-France exclusion (`lat > 43.9`);
and the point `(36.5, 2.0)`, which matches the Africa exclusion, is
classified outside. -/
theorem geofence_clasifica (rows : List RawRow) (r : RawRow) :
    (r ∈ filtraEspana rows ↔
      r ∈ rows ∧
        ((lat_min ≤ r.latitude ∧ r.latitude ≤ lat_max ∧
          lon_min ≤ r.longitude ∧ r.longitude ≤ lon_max) ∧
         ¬(r.latitude < 37 ∧ r.longitude > -1) ∧
         ¬(r.latitude > mkRat 439 10))) ∧
    classify_point (mkRat 365 10) 2 = false := by
  constructor
  · simp only [filtraEspana, List.mem_filter, en_bbox, mask_africa, mask_francia,
      Bool.and_eq_true, Bool.or_eq_true, Bool.not_eq_true', Bool.or_eq_false_iff,
      Bool.and_eq_false_iff, decide_eq_true_eq, decide_eq_false_iff_not]
    tauto
  · decide

/-- C5: for every stored record, the §6bis geofence pass keeps it iff the
current geofence classifies its coordinates inside; records inside are
untouched and records outside are deleted. -/
theorem poda_geofence (store : List Registro) (r : Registro) (h : r ∈ store) :
    r ∈ (borraFuera store).1 ↔ classify_point r.latitud r.longitud = true := by
  simp [borraFuera, List.mem_filter, h, fuera_espana_eq_not_classify]

/-- Witness for C5 at concrete records: a record inside Spain survives the
pass, one in the Africa strip is deleted. -/
theorem poda_geofence_witness :
    (⟨mkRat 401 10, mkRat (-35) 10, ⟨2024, 7, 1, 13, 45⟩, 0⟩ : Registro) ∈
      (borraFuera [⟨mkRat 401 10, mkRat (-35) 10, ⟨2024, 7, 1, 13, 45⟩, 0⟩,
        ⟨mkRat 365 10, 2, ⟨2024, 7, 1, 13, 45⟩, 0⟩]).1 ∧
    (⟨mkRat 365 10, 2, ⟨2024, 7, 1, 13, 45⟩, 0⟩ : Registro) ∉
      (borraFuera [⟨mkRat 401 10, mkRat (-35) 10, ⟨2024, 7, 1, 13, 45⟩, 0⟩,
        ⟨mkRat 365 10, 2, ⟨2024, 7, 1, 13, 45⟩, 0⟩]).1 := by
  refine ⟨(poda_geofence _ _ (by decide)).mpr (by decide), fun hm => ?_⟩
  exact absurd ((poda_geofence _ _ (by decide)).mp hm) (by decide)

/-- C6: the §6 age pass with the 7-day limit keeps a stored record iff its
timestamp is not strictly older than `ahora - 7 días`. -/
theorem poda_retencion (store : List Registro) (ahora : Int) (r : Registro)
    (h : r ∈ store) :
    r ∈ (borraAntiguos store (ahora - 7 * 1440)).1 ↔
      ¬(r.datetime.toMin < ahora - 7 * 1440) := by
  simp [borraAntiguos, List.mem_filter, h]

/-- Witness for C6: with `ahora` = 2024-07-10T00:00Z, the record observed
2024-07-02T00:00Z (8 days old) is deleted and the record observed
2024-07-04T00:00Z (6 days old) survives. -/
theorem poda_retencion_witness :
    ((⟨0, 0, ⟨2024, 7, 2, 0, 0⟩, 0⟩ : Registro) ∉
      (borraAntiguos [⟨0, 0, ⟨2024, 7, 2, 0, 0⟩, 0⟩, ⟨0, 0, ⟨2024, 7, 4, 0, 0⟩, 0⟩]
        (DateTime.toMin ⟨2024, 7, 10, 0, 0⟩ - 7 * 1440)).1) ∧
    ((⟨0, 0, ⟨2024, 7, 4, 0, 0⟩, 0⟩ : Registro) ∈
      (borraAntiguos [⟨0, 0, ⟨2024, 7, 2, 0, 0⟩, 0⟩, ⟨0, 0, ⟨2024, 7, 4, 0, 0⟩, 0⟩]
        (DateTime.toMin ⟨2024, 7, 10, 0, 0⟩ - 7 * 1440)).1) := by
  constructor
  · intro hm
    exact (poda_retencion _ (DateTime.toMin ⟨2024, 7, 10, 0, 0⟩) _ (by decide)).mp hm
      (by decide)
  · exact (poda_retencion _ (DateTime.toMin ⟨2024, 7, 10, 0, 0⟩) _ (by decide)).mpr
      (by decide)

/-- C7: the fetcher budget is 5 attempts; after each 429 it waits
`(intento + 1) * 10` seconds (linear ramp 10, 20, 30, …), after an
exception a fixed 3 seconds; the sequence 429, 429, 429, 200 succeeds with
elapsed backoffs 10s, 20s, 30s. -/
theorem retry_backoff_lineal :
    Aemet.obtener_prediccion (fun i => if i < 3 then .limite429 else .exito) =
      (.insertado, [10, 20, 30]) ∧
    Aemet.obtener_prediccion (fun _ => .limite429) =
      (.errorPersistente, [10, 20, 30, 40, 50]) ∧
    Aemet.obtener_prediccion (fun _ => .excepcion) =
      (.errorPersistente, [3, 3, 3, 3, 3]) := by
  decide

/-- C8: the raw row `{latitude: 40.1, longitude: -3.5, acq_date:
"2024-07-01", acq_time: "1345", frp: 12.3}` normalizes to a record whose
`datetime` is the UTC instant 2024-07-01T13:45:00Z and whose
`potencia_radiativa` is 12.3. -/
theorem normalizacion_fila :
    parse_datetime "2024-07-01" "1345" = some ⟨2024, 7, 1, 13, 45⟩ ∧
    normaliza ⟨mkRat 401 10, mkRat (-35) 10, "2024-07-01", "1345", mkRat 123 10⟩ =
      some ⟨mkRat 401 10, mkRat (-35) 10, ⟨2024, 7, 1, 13, 45⟩, mkRat 123 10⟩ := by
  decide

/-- C10: when the geographic filter leaves no rows, the run exits with
`SystemExit(0)` before any store operation: the store is unchanged and no
deletion or insertion is reported. -/
theorem filtro_vacio_sin_efecto (store : List Registro) (df : List RawRow) (ahora : Int)
    (h : filtraEspana df = []) :
    runFirms store df ahora = ⟨store, .vacia, 0, 0, 0⟩ := by
  simp [runFirms, h]

/-- Witness for C10: a batch holding one detection in the Africa strip is
fully filtered out and the run leaves a nonempty store untouched. -/
theorem filtro_vacio_sin_efecto_witness :
    runFirms [⟨0, 0, ⟨2024, 7, 1, 13, 45⟩, 0⟩]
      [⟨mkRat 365 10, 2, "2024-07-01", "1345", mkRat 123 10⟩] 0 =
      ⟨[⟨0, 0, ⟨2024, 7, 1, 13, 45⟩, 0⟩], .vacia, 0, 0, 0⟩ :=
  filtro_vacio_sin_efecto _ _ 0 (by decide)

/-- C9: every record a run leaves in the store either was already stored or
stems from a row whose date/time composition parsed successfully — a row
failing to parse is dropped before insertion and never stored. -/
theorem registros_con_fecha_valida (store : List Registro) (df : List RawRow)
    (ahora : Int) (r : Registro) (h : r ∈ (runFirms store df ahora).store) :
    r ∈ store ∨
      ∃ raw ∈ df, parse_datetime raw.acq_date raw.acq_time = some r.datetime := by
  unfold runFirms at h
  cases he : (filtraEspana df).isEmpty with
  | true => simp only [he, if_true] at h; exact Or.inl h
  | false =>
    simp only [he, Bool.false_eq_true, if_false] at h
    rcases mem_upsertLoop h with h1 | h1
    · simp only [borraFuera, borraAntiguos] at h1
      exact Or.inl (List.mem_filter.mp (List.mem_filter.mp h1).1).1
    · rcases List.mem_filterMap.mp h1 with ⟨raw, hmem, hnorm⟩
      unfold filtraEspana at hmem
      exact Or.inr ⟨raw, (List.mem_filter.mp (List.mem_filter.mp hmem).1).1,
        normaliza_parse hnorm⟩

/-- Witness for C9: ingesting one well-formed row and one row with the
unparsable time "9999" stores only the well-formed one, whose datetime is
the parsed instant. -/
theorem registros_con_fecha_valida_witness :
    (⟨mkRat 401 10, mkRat (-35) 10, ⟨2024, 7, 1, 13, 45⟩, mkRat 123 10⟩ : Registro) ∈
        ([] : List Registro) ∨
      ∃ raw ∈ [(⟨mkRat 401 10, mkRat (-35) 10, "2024-07-01", "1345", mkRat 123 10⟩ : RawRow),
               ⟨mkRat 401 10, mkRat (-35) 10, "2024-07-01", "9999", mkRat 123 10⟩],
        parse_datetime raw.acq_date raw.acq_time =
          some (⟨2024, 7, 1, 13, 45⟩ : DateTime) :=
  registros_con_fecha_valida []
    [⟨mkRat 401 10, mkRat (-35) 10, "2024-07-01", "1345", mkRat 123 10⟩,
     ⟨mkRat 401 10, mkRat (-35) 10, "2024-07-01", "9999", mkRat 123 10⟩] 0
    ⟨mkRat 401 10, mkRat (-35) 10, ⟨2024, 7, 1, 13, 45⟩, mkRat 123 10⟩ (by decide)

/-- C1: running the pipeline twice on the identical one-row batch leaves
the store content unchanged, but the reported `insertados` counter is the
batch size (1) on both runs — not 0 on the second — because `update_one
(…, upsert=True)` matches the existing document without raising, so the
`except` branch meant to skip duplicates never executes and no skipped
count exists. -/
theorem doble_ingesta_contador :
    (runFirms
        (runFirms []
          [⟨mkRat 401 10, mkRat (-35) 10, "2024-07-01", "1345", mkRat 123 10⟩]
          (DateTime.toMin ⟨2024, 7, 2, 0, 0⟩)).store
        [⟨mkRat 401 10, mkRat (-35) 10, "2024-07-01", "1345", mkRat 123 10⟩]
        (DateTime.toMin ⟨2024, 7, 2, 0, 0⟩)).store =
      (runFirms []
        [⟨mkRat 401 10, mkRat (-35) 10, "2024-07-01", "1345", mkRat 123 10⟩]
        (DateTime.toMin ⟨2024, 7, 2, 0, 0⟩)).store ∧
    (runFirms []
        [⟨mkRat 401 10, mkRat (-35) 10, "2024-07-01", "1345", mkRat 123 10⟩]
        (DateTime.toMin ⟨2024, 7, 2, 0, 0⟩)).insertados = 1 ∧
    (runFirms
        (runFirms []
          [⟨mkRat 401 10, mkRat (-35) 10, "2024-07-01", "1345", mkRat 123 10⟩]
          (DateTime.toMin ⟨2024, 7, 2, 0, 0⟩)).store
        [⟨mkRat 401 10, mkRat (-35) 10, "2024-07-01", "1345", mkRat 123 10⟩]
        (DateTime.toMin ⟨2024, 7, 2, 0, 0⟩)).insertados = 1 := by
  decide

/-- Counterexample to C2: a same-day re-run does not overwrite — after
re-ingesting the key `("28079", "2024-07-01")` the store holds two
documents for it and the prior document is still present. -/
theorem prediccion_duplicada_contraejemplo :
    cuentaClave
        (runAemet [⟨"28079", "Madrid", "2024-07-01", "a", 100⟩] 100 105
          [⟨"28079", "Madrid", [("2024-07-01", "b")]⟩]) "28079" "2024-07-01" = 2 ∧
    (⟨"28079", "Madrid", "2024-07-01", "a", 100⟩ : Prediccion) ∈
      runAemet [⟨"28079", "Madrid", "2024-07-01", "a", 100⟩] 100 105
        [⟨"28079", "Madrid", [("2024-07-01", "b")]⟩] := by
  decide

/-- C2 as amended: when every pre-existing document was downloaded before
today's midnight (the scheduled once-per-day cadence), a run with distinct
province codes and distinct dates per batch leaves at most one document
per `(codigo, fecha)` key; same-day documents are never deleted, so a
same-day re-run accumulates duplicates instead of overwriting. -/
theorem prediccion_clave_unica (store : List Prediccion) (hoy ahora : Int)
    (lotes : List Lote) (cod f : String)
    (hstore : ∀ p ∈ store, p.fecha_descarga < hoy)
    (hcod : lotes.Pairwise (fun l1 l2 => l1.codigo ≠ l2.codigo))
    (hdias : ∀ l ∈ lotes, (l.dias.map Prod.fst).Nodup) :
    cuentaClave (runAemet store hoy ahora lotes) cod f ≤ 1 := by
  unfold runAemet
  rw [List.filter_eq_nil_iff.mpr (fun p hp => by simp [hstore p hp]),
    List.nil_append]
  exact cuenta_lotes ahora cod f lotes hcod hdias

/-- Witness for the amended C2 at a concrete daily run: one stale stored
document, one batch with two dates, at most one document per key. -/
theorem prediccion_clave_unica_witness :
    cuentaClave
        (runAemet [⟨"28079", "Madrid", "2024-07-01", "a", 50⟩] 100 105
          [⟨"28079", "Madrid", [("2024-07-01", "b"), ("2024-07-02", "c")]⟩])
        "28079" "2024-07-01" ≤ 1 :=
  prediccion_clave_unica [⟨"28079", "Madrid", "2024-07-01", "a", 50⟩] 100 105
    [⟨"28079", "Madrid", [("2024-07-01", "b"), ("2024-07-02", "c")]⟩]
    "28079" "2024-07-01" (by decide) (by decide) (by decide)

/-- Counterexample to C3: a run that replaces only Madrid's forecasts
deletes Sevilla's prior-day record (other regions are altered), and a
same-day Madrid record whose date is absent from the new batch survives
the replace. -/
theorem reemplazo_contraejemplo :
    (⟨"41091", "Sevilla", "2024-07-01", "a", 50⟩ : Prediccion) ∉
        runAemet [⟨"41091", "Sevilla", "2024-07-01", "a", 50⟩] 100 105
          [⟨"28079", "Madrid", [("2024-07-02", "b")]⟩] ∧
    (⟨"28079", "Madrid", "2024-06-30", "a", 100⟩ : Prediccion) ∈
      runAemet [⟨"28079", "Madrid", "2024-06-30", "a", 100⟩] 100 105
        [⟨"28079", "Madrid", [("2024-07-02", "b")]⟩] := by
  decide

/-- C3 as amended: the deletion is a single global pass on download date,
not scoped to the replaced region — if every stored document predates
today's midnight, a run replaces the whole store with exactly the new
batches (so a region absent from the run keeps nothing); and a document
downloaded at or after midnight is never deleted, whatever its region or
date. -/
theorem reemplazo_global (store : List Prediccion) (hoy ahora : Int)
    (lotes : List Lote) :
    ((∀ p ∈ store, p.fecha_descarga < hoy) →
      runAemet store hoy ahora lotes = lotes.flatMap (insertaLote ahora)) ∧
    (∀ p ∈ store, hoy ≤ p.fecha_descarga → p ∈ runAemet store hoy ahora lotes) := by
  constructor
  · intro h
    unfold runAemet
    rw [List.filter_eq_nil_iff.mpr (fun p hp => by simp [h p hp]),
      List.nil_append]
  · intro p hp hge
    unfold runAemet
    exact List.mem_append_left _
      (List.mem_filter.mpr ⟨hp, by simp [not_lt.mpr hge]⟩)

/-- Witness for the amended C3: the run purges the stale Sevilla record and
holds exactly Madrid's new batch; a same-day record survives the run. -/
theorem reemplazo_global_witness :
    runAemet [⟨"41091", "Sevilla", "2024-07-01", "a", 50⟩] 100 105
        [⟨"28079", "Madrid", [("2024-07-02", "b")]⟩] =
      [⟨"28079", "Madrid", "2024-07-02", "b", 105⟩] ∧
    (⟨"28079", "Madrid", "2024-06-30", "a", 100⟩ : Prediccion) ∈
      runAemet [⟨"28079", "Madrid", "2024-06-30", "a", 100⟩] 100 105
        [⟨"28079", "Madrid", [("2024-07-02", "b")]⟩] := by
  constructor
  · exact ((reemplazo_global [⟨"41091", "Sevilla", "2024-07-01", "a", 50⟩] 100 105
      [⟨"28079", "Madrid", [("2024-07-02", "b")]⟩]).1 (by decide)).trans (by decide)
  · exact (reemplazo_global [⟨"28079", "Madrid", "2024-06-30", "a", 100⟩] 100 105
      [⟨"28079", "Madrid", [("2024-07-02", "b")]⟩]).2
      ⟨"28079", "Madrid", "2024-06-30", "a", 100⟩ (by decide) (by decide)

end Claims
